import Mathlib

/-!
Shallow embedding of the OpenStack machine actuator
(`cmd/manager/main.go`, package `machine`) and proofs about it.

External collaborators (cloud provider API, record store, kube secrets,
user-data renderer internals) are modelled as oracles: each call site of
an external function takes its result from an environment structure.
Side effects (provider calls, emitted events, record-store writes) are
collected in an explicit trace.  Go `nil`-pointer dereference is made
explicit as a `panicked` outcome.
-/

/-- Typed node-address roles, mirroring `corev1.NodeAddressType`. -/
inductive NodeAddressType where
  | externalIP
  | internalIP
  | hostname
  | internalDNS
deriving DecidableEq, Repr

/-- `corev1.NodeAddress`: a typed address entry on the machine status. -/
structure NodeAddress where
  type_ : NodeAddressType
  address : String
deriving DecidableEq, Repr

/-- One entry of an instance address blob, mirroring the local
`networkInterface` struct of `getIPsFromInstance` (fields `addr`,
`version`, `OS-EXT-IPS:type`).  The address-family version is 4 or 6. -/
structure NetworkInterface where
  address : String
  version : Nat
  type_ : String
deriving DecidableEq, Repr

/-- `clients.Instance` as used by the actuator: provider-issued id,
lifecycle status string, and the per-network lists of interfaces
(the JSON marshal/unmarshal round trip of `getIPsFromInstance` is the
identity on this typed form). -/
structure Instance where
  id : String
  status : String
  addresses : List (List NetworkInterface)
deriving DecidableEq, Repr

/-- Structured machine error reasons (`apierrors` of the machine-api
operator): invalid-configuration errors are permanent, create and
delete errors are retried by the reconcile driver. -/
inductive MachineErrorReason where
  | invalidConfiguration
  | createError
  | deleteError
  | updateError
deriving DecidableEq, Repr

/-- Machine status subset written by the actuator. -/
structure MachineStatus where
  addresses : List NodeAddress
  errorReason : Option MachineErrorReason
  errorMessage : Option String
deriving DecidableEq, Repr

/-- The machine record (`machinev1.Machine`) subset the actuator reads
and writes.  `clusterLabel` is the value of the
`machine.uccp.io/cluster-api-cluster` label; `providerID` is
`Spec.ProviderID`; annotations are an association list standing for
the Go string map. -/
structure Machine where
  name : String
  namespace_ : String
  clusterLabel : String
  providerID : Option String
  annotations : List (String × String)
  status : MachineStatus
deriving DecidableEq, Repr

/-- `corev1.SecretReference` on the provider spec. -/
structure SecretRef where
  name : String
  namespace_ : String
deriving DecidableEq, Repr

/-- A kube secret: its data map as an association list. -/
structure Secret where
  data : List (String × String)
deriving DecidableEq, Repr

/-- The provider-specific machine spec fields the actuator consumes
(`openstackconfigv1.OpenstackProviderSpec`). -/
structure ProviderSpec where
  userDataSecret : Option SecretRef
  keyName : String
  floatingIP : String
  image : String
  flavor : String
  availabilityZone : String
  rootVolume : Option Unit
deriving DecidableEq, Repr

/-- A classified machine error: reason code plus human message. -/
structure MachineError where
  reason : MachineErrorReason
  message : String
deriving DecidableEq, Repr

/-- Observability event: type ("Normal" or "Warning") and reason. -/
structure Event where
  etype : String
  reason : String
deriving DecidableEq, Repr

/-- A call issued to the compute provider, as recorded in the trace.
`pollStarted` records the interval and timeout (in nanoseconds) handed
to the poll loop. -/
inductive ProviderCall where
  | instanceCreate
  | getInstance
  | instanceDelete (id : String)
  | associateFloatingIP
  | setMachineLabels
  | getInstanceList
  | pollStarted (intervalNs : Int) (timeoutNs : Int)
deriving DecidableEq, Repr

/-- A write to the record store: whole-object update (`client.Update`)
or status-subresource update (`client.Status().Update`), with the
object written. -/
inductive RecordWrite where
  | update (m : Machine)
  | statusUpdate (m : Machine)
deriving DecidableEq, Repr

/-- Trace of external effects of one actuator operation. -/
structure OpTrace where
  calls : List ProviderCall
  events : List Event
  writes : List RecordWrite
deriving DecidableEq, Repr

/-- Empty trace. -/
def OpTrace.nil : OpTrace := ⟨[], [], []⟩

/-- Concatenation of traces, in execution order. -/
def tcat (a b : OpTrace) : OpTrace :=
  ⟨a.calls ++ b.calls, a.events ++ b.events, a.writes ++ b.writes⟩

/-- Outcome of an actuator operation: success, a classified error
returned through `handleMachineError`, a plain Go error returned
directly, or a runtime panic. -/
inductive OpResult where
  | ok
  | machineErr (e : MachineError)
  | rawErr (msg : String)
  | panicked (msg : String)
deriving DecidableEq, Repr

/-- Full result of one operation: final in-memory machine, effect
trace, and outcome. -/
abbrev ActResult := Machine × OpTrace × OpResult

/-- Final machine of an operation result. -/
def machineOf (x : ActResult) : Machine := x.1

/-- Effect trace of an operation result. -/
def traceOf (x : ActResult) : OpTrace := x.2.1

/-- Outcome of an operation result. -/
def resultOf (x : ActResult) : OpResult := x.2.2

/- Constants from the source. -/

/-- Secret data key holding the user data. -/
def UserDataKey : String := "userData"

/-- Secret data key disabling templating. -/
def DisableTemplatingKey : String := "disableTemplating"

/-- Secret data key naming a postprocessor. -/
def PostprocessorKey : String := "postprocessor"

/-- Annotation key for the last observed instance state. -/
def MachineInstanceStateAnnotationName : String := "machine.uccp.io/instance-state"

/-- Sentinel instance state recorded when the machine is broken. -/
def ErrorState : String := "ERROR"

/-- Annotation key for the bound instance resource id. -/
def OpenstackIdAnnotationKey : String := "openstack-resourceId"

/-- Event action names. -/
def createEventAction : String := "Create"

/-- Event action name for Update. -/
def updateEventAction : String := "Update"

/-- Event action name for Delete. -/
def deleteEventAction : String := "Delete"

/-- Empty event action (no event emitted). -/
def noEventAction : String := ""

/- Association-list operations standing for Go string maps. -/

/-- Lookup in a string map. -/
def lookupA (m : List (String × String)) (k : String) : Option String :=
  (m.find? (fun p => p.1 == k)).map (fun p => p.2)

/-- Insert or replace a key in a string map. -/
def insertA (m : List (String × String)) (k v : String) : List (String × String) :=
  if (m.find? (fun p => p.1 == k)).isSome then
    m.map (fun p => if p.1 == k then (k, v) else p)
  else
    m ++ [(k, v)]

/-- Go map indexing: missing keys read as the empty string. -/
def mapGet (m : List (String × String)) (k : String) : String :=
  (lookupA m k).getD ""

/-- `getIPsFromInstance`: flatten the per-network interface lists,
keep only IPv4 entries, map role "floating" to an external IP and
"fixed" to an internal IP, and silently drop every other entry. -/
def getIPsFromInstance (ins : Instance) : List NodeAddress :=
  ins.addresses.flatMap (fun b =>
    b.filterMap (fun a =>
      if a.version ≠ 4 then none
      else if a.type_ == "floating" then some ⟨NodeAddressType.externalIP, a.address⟩
      else if a.type_ == "fixed" then some ⟨NodeAddressType.internalIP, a.address⟩
      else none))

/-- The node-address list computed by the status write-back: the
filtered instance addresses followed by a hostname entry and an
internal-DNS entry, both carrying the machine name. -/
def nodeAddressList (name : String) (ins : Instance) : List NodeAddress :=
  getIPsFromInstance ins ++
    [⟨NodeAddressType.hostname, name⟩, ⟨NodeAddressType.internalDNS, name⟩]

/-- `handleMachineError`: emit a warning event (unless the action is
empty), and, when a status-writable client is configured, set the
status error reason and message, force the instance-state annotation
to the ERROR sentinel and persist the record; a failure of that
persistence is returned instead of the original error. -/
def handleMachineError (clientPresent updateOk : Bool) (machine : Machine)
    (err : MachineError) (eventAction : String) : ActResult :=
  let events := if eventAction ≠ noEventAction then
      [⟨"Warning", "Failed" ++ eventAction⟩] else ([] : List Event)
  if clientPresent then
    let m := { machine with
      status := { machine.status with
        errorReason := some err.reason,
        errorMessage := some err.message },
      annotations := insertA machine.annotations MachineInstanceStateAnnotationName ErrorState }
    if updateOk then
      (m, ⟨[], events, [RecordWrite.update m]⟩, OpResult.machineErr err)
    else
      (m, ⟨[], events, [RecordWrite.update m]⟩,
        OpResult.rawErr "unable to update machine status")
  else
    (machine, ⟨[], events, []⟩, OpResult.machineErr err)

/-- Environment for the status write-back and for every
`handleMachineError` call: whether a status-writable client is
configured, and the success of each record-store write. -/
structure UpdEnv where
  clientPresent : Bool
  hmeUpdateOk : Bool
  update1Ok : Bool
  statusUpdateOk : Bool
  update2Ok : Bool
deriving DecidableEq, Repr

/-- Message of the providerID-conflict configuration error. -/
def providerIDChangedMsg (old new : String) : String :=
  "providerID has changed from " ++ old ++ " to " ++ new ++
    ". This is not supported. The recommended action is to delete and recreate this machine."

/-- Panic message of a Go nil-pointer dereference. -/
def nilDerefMsg : String :=
  "runtime error: invalid memory address or nil pointer dereference"

/-- Body of the status write-back after the providerID check: annotate
resource id and instance state, persist the whole record, recompute the
address list, persist the status subresource only when the list
changed, restore the in-memory status and persist once more. -/
def updateAnnBody (env : UpdEnv) (machine : Machine) (ins : Instance) : ActResult :=
  let statusCopy := machine.status
  let m2 := { machine with
    annotations :=
      insertA (insertA machine.annotations OpenstackIdAnnotationKey ins.id)
        MachineInstanceStateAnnotationName ins.status }
  if ¬ env.update1Ok then
    (m2, ⟨[], [], [RecordWrite.update m2]⟩, OpResult.rawErr "machine update failed")
  else
    let nodeAddresses := nodeAddressList m2.name ins
    let machineCopy := { m2 with status := { m2.status with addresses := nodeAddresses } }
    if m2.status.addresses ≠ nodeAddresses then
      if ¬ env.statusUpdateOk then
        (m2, ⟨[], [], [RecordWrite.update m2, RecordWrite.statusUpdate machineCopy]⟩,
          OpResult.rawErr "machine status update failed")
      else
        let m3 := { m2 with status := statusCopy }
        if ¬ env.update2Ok then
          (m3, ⟨[], [], [RecordWrite.update m2, RecordWrite.statusUpdate machineCopy,
            RecordWrite.update m3]⟩, OpResult.rawErr "machine update failed")
        else
          (m3, ⟨[], [], [RecordWrite.update m2, RecordWrite.statusUpdate machineCopy,
            RecordWrite.update m3]⟩, OpResult.ok)
    else
      let m3 := { m2 with status := statusCopy }
      if ¬ env.update2Ok then
        (m3, ⟨[], [], [RecordWrite.update m2, RecordWrite.update m3]⟩,
          OpResult.rawErr "machine update failed")
      else
        (m3, ⟨[], [], [RecordWrite.update m2, RecordWrite.update m3]⟩, OpResult.ok)

/-- `updateAnnotation`, the status write-back shared by Create and
Update.  A `none` instance models the nil pointer the Go code
dereferences on its first line, hence the panic outcome.  Binds
`providerID` on first write; on mismatch with an already bound id,
fails through `handleMachineError` with a configuration error. -/
def updateAnn (env : UpdEnv) (machine : Machine) (inst : Option Instance)
    (_clusterInfraName : String) : ActResult :=
  match inst with
  | none => (machine, OpTrace.nil, OpResult.panicked nilDerefMsg)
  | some ins =>
    let providerID := "openstack:///" ++ ins.id
    match machine.providerID with
    | some existing =>
      if existing ≠ providerID then
        handleMachineError env.clientPresent env.hmeUpdateOk machine
          ⟨MachineErrorReason.invalidConfiguration, providerIDChangedMsg existing providerID⟩
          updateEventAction
      else
        updateAnnBody env machine ins
    | none =>
      updateAnnBody env { machine with providerID := some providerID } ins


/- Timeout handling (`getTimeout`) and time constants. -/

/-- One digit of a base-10 integer literal, as `strconv.Atoi` accepts. -/
def digitVal (c : Char) : Option Nat :=
  if c.isDigit then some (c.toNat - 48) else none

/-- Accumulate decimal digits; any non-digit makes the parse fail. -/
def parseNatDigits : List Char → Nat → Option Nat
  | [], acc => some acc
  | c :: rest, acc =>
    match digitVal c with
    | none => none
    | some d => parseNatDigits rest (acc * 10 + d)

/-- `strconv.Atoi`: an optional sign followed by at least one decimal
digit; anything else is a parse error.  (Machine-int overflow is not
modelled; override values are far below it.) -/
def goAtoi (s : String) : Option Int :=
  match s.data with
  | [] => none
  | '-' :: rest =>
    if rest = [] then none else (parseNatDigits rest 0).map (fun n => -(n : Int))
  | '+' :: rest =>
    if rest = [] then none else (parseNatDigits rest 0).map (fun n => (n : Int))
  | cs => (parseNatDigits cs 0).map (fun n => (n : Int))

/-- Default instance-create poll timeout, in minutes. -/
def TimeoutInstanceCreate : Int := 5

/-- Nanoseconds per second (`time.Second`). -/
def secondNs : Int := 1000000000

/-- Nanoseconds per minute (`time.Minute`). -/
def minuteNs : Int := 60 * secondNs

/-- Fixed poll interval: 10 seconds, in nanoseconds. -/
def RetryIntervalInstanceStatus : Int := 10 * secondNs

/-- `getTimeout`: when the named environment variable is set and parses
as an integer, use it; otherwise (unset, empty, or malformed) fall back
to the given default.  `envVal` is the value read from the environment,
the empty string standing for an unset variable. -/
def getTimeout (envVal : String) (timeout : Int) : Int :=
  if envVal ≠ "" then
    match goAtoi envVal with
    | some t => t
    | none => timeout
  else timeout

/-- The timeout Create hands to the poll loop:
`getTimeout(...) * time.Minute`, in nanoseconds. -/
def instanceCreateTimeoutNs (envVal : String) : Int :=
  getTimeout envVal TimeoutInstanceCreate * minuteNs

/-- Error message of an exhausted poll deadline (`wait.PollImmediate`). -/
def pollTimeoutMsg : String := "timed out waiting for the condition"

/-- Modelled from the spec: the bounded poll loop
(`util.PollImmediate`, not under `src/`): run the condition at a fixed
interval until it reports done or the deadline elapses.  `fuel` is the
number of attempts the deadline allows and `results` the sequence of
`GetInstance` answers.  The condition body is taken verbatim from
Create: a provider error is swallowed (treated as not yet active) and
an instance counts as done exactly when its status is "ACTIVE".
Returns the number of attempts made and either the active instance or
an error — by construction only the deadline error. -/
def pollRun (results : Nat → Except String Instance) : Nat → Nat → Nat × Except String Instance
  | _, 0 => (0, Except.error pollTimeoutMsg)
  | i, fuel + 1 =>
    match results i with
    | Except.error _ =>
      let r := pollRun results (i + 1) fuel
      (r.1 + 1, r.2)
    | Except.ok ins =>
      if ins.status == "ACTIVE" then (1, Except.ok ins)
      else
        let r := pollRun results (i + 1) fuel
        (r.1 + 1, r.2)

/-- Prepend an effect trace to an operation result. -/
def withTrace (t : OpTrace) : ActResult → ActResult
  | (m, t2, r) => (m, tcat t t2, r)

/- Error message helpers (the `fmt` strings of the source). -/

/-- Cluster-membership label mismatch message. -/
def labelMismatchMsg (label name cluster : String) : String :=
  "machine.uccp.io/cluster-api-cluster label value is incorrect: " ++ label ++
    ", machine " ++ name ++ " cannot join cluster " ++ cluster

/-- ProviderID-conflict message of Create (re-creating a destroyed
instance is refused). -/
def destroyedMsg (name : String) : String :=
  "the instance has been destroyed for the machine " ++ name ++ ", cannot recreate it.\n"

/-- Missing user-data key message. -/
def missingKeyMsg (secretName ns : String) : String :=
  "Machine userdata secret " ++ secretName ++ " in namespace " ++ ns ++
    " did not contain key " ++ UserDataKey

/-- Environment of one Create invocation: the results of every
external call Create can make, in program order. -/
structure CreateEnv where
  clusterInfra : Except String String
  instanceService : Except String Unit
  providerSpec : Except String ProviderSpec
  imageExists : Except String Unit
  flavorExists : Except String Unit
  azExists : Except String Unit
  secret : Except String Secret
  masterScript : Except String String
  bootstrapToken : Except String String
  nodeScript : Except String String
  ctTranspile : Except String String
  instanceCreate : Except String Instance
  pollResults : Nat → Except String Instance
  pollFuel : Nat
  associate : Except String Unit
  setLabels : Except String Unit
  envTimeoutVar : String
  upd : UpdEnv

/-- `validateMachine`: image existence is only checked when not booting
from a volume; then flavor and availability zone existence. -/
def validateMachine (env : CreateEnv) (spec : ProviderSpec) : Except String Unit :=
  match (match spec.rootVolume with
         | none => env.imageExists
         | some _ => Except.ok ()) with
  | Except.error e => Except.error e
  | Except.ok _ =>
    match env.flavorExists with
    | Except.error e => Except.error e
    | Except.ok _ => env.azExists

/-- User-data resolution step of Create: fetch the referenced secret
and extract the user data plus the templating and postprocessor flags.
Every failure here is a plain error returned directly (not classified
through `handleMachineError`).  Returns
(userData, disableTemplating, postprocess, postprocessor). -/
def resolveUserData (machine : Machine) (spec : ProviderSpec)
    (secretResult : Except String Secret) : Except String (String × Bool × Bool × String) :=
  match spec.userDataSecret with
  | none => Except.ok ("", false, false, "")
  | some ref =>
    let ns := if ref.namespace_ = "" then machine.namespace_ else ref.namespace_
    if ref.name = "" then Except.error "UserDataSecret name must be provided"
    else
      match secretResult with
      | Except.error e => Except.error e
      | Except.ok sec =>
        match lookupA sec.data UserDataKey with
        | none => Except.error (missingKeyMsg ref.name ns)
        | some userData =>
          let postData := lookupA sec.data PostprocessorKey
          Except.ok (userData, (lookupA sec.data DisableTemplatingKey).isSome,
            postData.isSome, postData.getD "")

/-- User-data rendering step of Create: with nonempty user data and
templating enabled, a machine with a name renders the master startup
script, otherwise a bootstrap token is minted and the node startup
script rendered; failures are classified create errors. -/
def renderUserData (env : CreateEnv) (machine : Machine) (userData : String)
    (disableTemplating : Bool) : Except MachineError String :=
  if userData.length > 0 ∧ ¬ disableTemplating then
    if machine.name ≠ "" then
      match env.masterScript with
      | Except.error e =>
        Except.error ⟨MachineErrorReason.createError, "error creating Openstack instance: " ++ e⟩
      | Except.ok s => Except.ok s
    else
      match env.bootstrapToken with
      | Except.error e =>
        Except.error ⟨MachineErrorReason.createError, "error creating Openstack instance: " ++ e⟩
      | Except.ok _ =>
        match env.nodeScript with
        | Except.error e =>
          Except.error ⟨MachineErrorReason.createError, "error creating Openstack instance: " ++ e⟩
        | Except.ok s => Except.ok s
  else Except.ok userData

/-- Postprocessing step of Create: only the "ct" transpiler is known;
an unknown postprocessor name and transpile failures are plain errors
returned directly. -/
def postUserData (env : CreateEnv) (rendered : String) (postprocess : Bool)
    (postprocessor : String) : Except String String :=
  if postprocess then
    if postprocessor == "ct" then
      match env.ctTranspile with
      | Except.error e => Except.error ("Postprocessor error: " ++ e)
      | Except.ok ud => Except.ok ud
    else Except.error ("Postprocessor error: unknown postprocessor: " ++ postprocessor)
  else Except.ok rendered

/-- Label push and finalization of Create: on a label-push failure the
source returns nil immediately — success with no Created event and no
write-back; otherwise it emits the Created event and runs the status
write-back. -/
def createFinish (env : CreateEnv) (machine : Machine) (clusterInfraName : String)
    (ins : Instance) : ActResult :=
  match env.setLabels with
  | Except.error _ => (machine, ⟨[ProviderCall.setMachineLabels], [], []⟩, OpResult.ok)
  | Except.ok _ =>
    withTrace ⟨[ProviderCall.setMachineLabels], [⟨"Normal", "Created"⟩], []⟩
      (updateAnn env.upd machine (some ins) clusterInfraName)

/-- Floating-IP association step of Create, followed by
`createFinish`; association failures are classified create errors. -/
def createTail (env : CreateEnv) (machine : Machine) (clusterInfraName : String)
    (spec : ProviderSpec) (ins : Instance) : ActResult :=
  if spec.floatingIP ≠ "" then
    match env.associate with
    | Except.error e =>
      withTrace ⟨[ProviderCall.associateFloatingIP], [], []⟩
        (handleMachineError env.upd.clientPresent env.upd.hmeUpdateOk machine
          ⟨MachineErrorReason.createError, "Associate floatingIP err: " ++ e⟩ createEventAction)
    | Except.ok _ =>
      withTrace ⟨[ProviderCall.associateFloatingIP], [], []⟩
        (createFinish env machine clusterInfraName ins)
  else createFinish env machine clusterInfraName ins

/-- `Create`: the full create operation, in source order — cluster
label check, instance service, provider-spec decode, validation, the
providerID re-creation guard, user-data resolution and rendering,
postprocessing, the provider instance-create call, the bounded poll
until ACTIVE, floating-IP association, best-effort label push, Created
event and status write-back. -/
def createOp (env : CreateEnv) (machine : Machine) : ActResult :=
  match env.clusterInfra with
  | Except.error e => (machine, OpTrace.nil, OpResult.rawErr e)
  | Except.ok clusterInfraName =>
    if machine.clusterLabel ≠ clusterInfraName then
      handleMachineError env.upd.clientPresent env.upd.hmeUpdateOk machine
        ⟨MachineErrorReason.invalidConfiguration,
          labelMismatchMsg machine.clusterLabel machine.name clusterInfraName⟩ createEventAction
    else
      match env.instanceService with
      | Except.error e => (machine, OpTrace.nil, OpResult.rawErr e)
      | Except.ok _ =>
        match env.providerSpec with
        | Except.error e =>
          handleMachineError env.upd.clientPresent env.upd.hmeUpdateOk machine
            ⟨MachineErrorReason.invalidConfiguration,
              "Cannot unmarshal providerSpec field: " ++ e⟩ createEventAction
        | Except.ok spec =>
          match validateMachine env spec with
          | Except.error e =>
            handleMachineError env.upd.clientPresent env.upd.hmeUpdateOk machine
              ⟨MachineErrorReason.invalidConfiguration,
                "Machine validation failed: " ++ e⟩ createEventAction
          | Except.ok _ =>
            match machine.providerID with
            | some _ =>
              handleMachineError env.upd.clientPresent env.upd.hmeUpdateOk machine
                ⟨MachineErrorReason.invalidConfiguration, destroyedMsg machine.name⟩
                createEventAction
            | none =>
              match resolveUserData machine spec env.secret with
              | Except.error e => (machine, OpTrace.nil, OpResult.rawErr e)
              | Except.ok (userData, disableTemplating, postprocess, postprocessor) =>
                match renderUserData env machine userData disableTemplating with
                | Except.error me =>
                  handleMachineError env.upd.clientPresent env.upd.hmeUpdateOk machine me
                    createEventAction
                | Except.ok rendered =>
                  match postUserData env rendered postprocess postprocessor with
                  | Except.error e => (machine, OpTrace.nil, OpResult.rawErr e)
                  | Except.ok _ =>
                    match env.instanceCreate with
                    | Except.error e =>
                      withTrace ⟨[ProviderCall.instanceCreate], [], []⟩
                        (handleMachineError env.upd.clientPresent env.upd.hmeUpdateOk machine
                          ⟨MachineErrorReason.createError,
                            "error creating Openstack instance: " ++ e⟩ createEventAction)
                    | Except.ok _ =>
                      let timeoutNs := instanceCreateTimeoutNs env.envTimeoutVar
                      let poll := pollRun env.pollResults 0 env.pollFuel
                      let pollTrace : OpTrace :=
                        ⟨ProviderCall.instanceCreate ::
                          ProviderCall.pollStarted RetryIntervalInstanceStatus timeoutNs ::
                          List.replicate poll.1 ProviderCall.getInstance, [], []⟩
                      match poll.2 with
                      | Except.error e =>
                        withTrace pollTrace
                          (handleMachineError env.upd.clientPresent env.upd.hmeUpdateOk machine
                            ⟨MachineErrorReason.createError,
                              "error creating Openstack instance: " ++ e⟩ createEventAction)
                      | Except.ok ins =>
                        withTrace pollTrace (createTail env machine clusterInfraName spec ins)

/-- Environment of one instance lookup (`instanceExists`): spec
decode, instance service construction, and the provider list call. -/
structure LookupEnv where
  spec : Except String ProviderSpec
  service : Except String Unit
  instanceList : Except String (List Instance)

/-- `instanceExists`: look up a live instance by the name/image/flavor
filter; an empty list yields no instance, otherwise the first match. -/
def instanceExists (env : LookupEnv) (_machine : Machine) :
    OpTrace × Except String (Option Instance) :=
  match env.spec with
  | Except.error e =>
    (OpTrace.nil, Except.error ("Error getting the machine spec from the provider spec: " ++ e))
  | Except.ok _ =>
    match env.service with
    | Except.error e =>
      (OpTrace.nil, Except.error ("Error getting a new instance service from the machine: " ++ e))
    | Except.ok _ =>
      match env.instanceList with
      | Except.error e =>
        (⟨[ProviderCall.getInstanceList], [], []⟩,
          Except.error ("Error listing the instances: " ++ e))
      | Except.ok l => (⟨[ProviderCall.getInstanceList], [], []⟩, Except.ok l.head?)

/-- Environment of one Update invocation. -/
structure UpdateEnv where
  clusterInfra : Except String String
  lookup : LookupEnv
  upd : UpdEnv

/-- `Update`: re-resolve the instance and re-run the status
write-back; Update issues no instance-create call. -/
def updateOp (env : UpdateEnv) (machine : Machine) : ActResult :=
  match env.clusterInfra with
  | Except.error e => (machine, OpTrace.nil, OpResult.rawErr e)
  | Except.ok clusterInfraName =>
    let lk := instanceExists env.lookup machine
    match lk.2 with
    | Except.error e =>
      (machine, lk.1,
        OpResult.rawErr ("error fetching OpenStack server for machine " ++ machine.name ++ ": " ++ e))
    | Except.ok ins => withTrace lk.1 (updateAnn env.upd machine ins clusterInfraName)

/-- Environment of one Delete invocation. -/
structure DeleteEnv where
  service : Except String Unit
  lookup : LookupEnv
  instanceDelete : Except String Unit
  upd : UpdEnv

/-- `Delete`: an absent instance is a no-op success; otherwise delete
by the annotated resource id, a provider failure being a classified
(retryable) delete error, and emit the Deleted event on success. -/
def deleteOp (env : DeleteEnv) (machine : Machine) : ActResult :=
  match env.service with
  | Except.error e => (machine, OpTrace.nil, OpResult.rawErr e)
  | Except.ok _ =>
    let lk := instanceExists env.lookup machine
    match lk.2 with
    | Except.error e => (machine, lk.1, OpResult.rawErr e)
    | Except.ok none => (machine, lk.1, OpResult.ok)
    | Except.ok (some _) =>
      let id := mapGet machine.annotations OpenstackIdAnnotationKey
      match env.instanceDelete with
      | Except.error e =>
        withTrace (tcat lk.1 ⟨[ProviderCall.instanceDelete id], [], []⟩)
          (handleMachineError env.upd.clientPresent env.upd.hmeUpdateOk machine
            ⟨MachineErrorReason.deleteError, "error deleting Openstack instance: " ++ e⟩
            deleteEventAction)
      | Except.ok _ =>
        (machine, tcat lk.1 ⟨[ProviderCall.instanceDelete id], [⟨"Normal", "Deleted"⟩], []⟩,
          OpResult.ok)

/- Concrete fixtures used by witnesses and counterexamples. -/

/-- A single network with IPv4 floating, IPv4 fixed and IPv6 fixed
interfaces. -/
def addrsA : List (List NetworkInterface) :=
  [[⟨"1.2.3.4", 4, "floating"⟩, ⟨"10.0.0.5", 4, "fixed"⟩, ⟨"fe80::1", 6, "fixed"⟩]]

/-- An active instance with id "abc". -/
def instA : Instance := ⟨"abc", "ACTIVE", addrsA⟩

/-- A fresh machine record: no providerID, no annotations, empty status. -/
def machineA : Machine := ⟨"m0", "ns0", "cl0", none, [], ⟨[], none, none⟩⟩

/-- A write-back environment where the client is present and every
record write succeeds. -/
def updEnvA : UpdEnv := ⟨true, true, true, true, true⟩

/-- A provider spec with no user-data secret and no floating IP. -/
def specA : ProviderSpec := ⟨none, "", "", "img", "flv", "az", none⟩

/-- A Create environment where every external call succeeds. -/
def createEnvA : CreateEnv :=
  ⟨Except.ok "cl0", Except.ok (), Except.ok specA, Except.ok (), Except.ok (), Except.ok (),
    Except.error "no secret", Except.ok "script", Except.ok "tok", Except.ok "nodescript",
    Except.ok "ct", Except.ok instA, (fun _ => Except.ok instA), 3, Except.ok (), Except.ok (),
    "", updEnvA⟩

/-- The fresh machine with a providerID already bound. -/
def machineBound : Machine := { machineA with providerID := some "openstack:///abc" }

/-- A machine bound to a different instance id than `instNew`. -/
def machineOld : Machine := { machineA with providerID := some "openstack:///old" }

/-- An instance whose derived providerID conflicts with `machineOld`. -/
def instNew : Instance := ⟨"new", "ACTIVE", []⟩

/-- A lookup environment that finds no instance. -/
def lookupEnvEmpty : LookupEnv := ⟨Except.ok specA, Except.ok (), Except.ok []⟩

/-- A lookup environment that finds `instA`. -/
def lookupEnvFound : LookupEnv := ⟨Except.ok specA, Except.ok (), Except.ok [instA]⟩

/- Helper lemmas about `handleMachineError` and the write-back. -/

lemma hme_calls (cp uo : Bool) (m : Machine) (e : MachineError) (a : String) :
    (traceOf (handleMachineError cp uo m e a)).calls = [] := by
  unfold handleMachineError traceOf
  cases cp <;> cases uo <;> simp

lemma hme_result (cp : Bool) (m : Machine) (e : MachineError) (a : String) :
    resultOf (handleMachineError cp true m e a) = OpResult.machineErr e := by
  unfold handleMachineError resultOf
  cases cp <;> simp

lemma hme_providerID (cp uo : Bool) (m : Machine) (e : MachineError) (a : String) :
    (machineOf (handleMachineError cp uo m e a)).providerID = m.providerID := by
  unfold handleMachineError machineOf
  cases cp <;> cases uo <;> simp

lemma hme_addresses (cp uo : Bool) (m : Machine) (e : MachineError) (a : String) :
    (machineOf (handleMachineError cp uo m e a)).status.addresses = m.status.addresses := by
  unfold handleMachineError machineOf
  cases cp <;> cases uo <;> simp

lemma updateAnnBody_calls (env : UpdEnv) (m : Machine) (ins : Instance) :
    (traceOf (updateAnnBody env m ins)).calls = [] := by
  unfold updateAnnBody traceOf
  by_cases h1 : env.update1Ok <;> by_cases h2 : env.statusUpdateOk <;>
    by_cases h3 : env.update2Ok <;>
    by_cases ha : m.status.addresses = nodeAddressList m.name ins <;>
    simp [h1, h2, h3, ha]

lemma updateAnn_calls (env : UpdEnv) (m : Machine) (io : Option Instance) (cin : String) :
    (traceOf (updateAnn env m io cin)).calls = [] := by
  unfold updateAnn
  cases io with
  | none => simp [traceOf, OpTrace.nil]
  | some ins =>
    cases hp : m.providerID with
    | none => simp [updateAnnBody_calls]
    | some existing =>
      by_cases h : existing = "openstack:///" ++ ins.id <;>
        simp [h, hme_calls, updateAnnBody_calls]

/-- C9: the instance-create poll timeout defaults to 5 minutes with a
fixed 10-second poll interval; the environment variable overrides the
timeout in minutes; a malformed (non-integer) value is ignored and the
5-minute default is used. -/
theorem c9_timeout_env_override :
    instanceCreateTimeoutNs "" = 5 * minuteNs ∧
    RetryIntervalInstanceStatus = 10 * secondNs ∧
    (∀ (v : String) (n : Int), goAtoi v = some n →
      instanceCreateTimeoutNs v = n * minuteNs) ∧
    (∀ v : String, goAtoi v = none → instanceCreateTimeoutNs v = 5 * minuteNs) := by
  refine ⟨by decide, by decide, ?_, ?_⟩
  · intro v n h
    have hv : v ≠ "" := by
      intro he
      subst he
      have : goAtoi "" = none := by decide
      rw [this] at h
      exact Option.noConfusion h
    simp [instanceCreateTimeoutNs, getTimeout, hv, h]
  · intro v h
    by_cases hv : v = ""
    · subst hv
      decide
    · simp [instanceCreateTimeoutNs, getTimeout, hv, h, TimeoutInstanceCreate]

/-- Witness for C9: a valid override of 7 minutes is honoured; the
malformed value "5x" falls back to the 5-minute default. -/
theorem c9_witness :
    instanceCreateTimeoutNs "7" = 7 * minuteNs ∧
    instanceCreateTimeoutNs "5x" = 5 * minuteNs :=
  ⟨c9_timeout_env_override.2.2.1 "7" 7 (by decide),
   c9_timeout_env_override.2.2.2 "5x" (by decide)⟩

/-- C10: in the Create poll loop, every provider GetInstance error is
swallowed and counts as "not yet active": when every attempt errors,
the loop still makes all the attempts the deadline allows and fails
with the timeout error; moreover the only error the poll loop can ever
return is the timeout error, never a provider read error. -/
theorem c10_poll_swallows_errors :
    (∀ (results : Nat → Except String Instance) (i fuel : Nat),
      (∀ k, ∃ e, results k = Except.error e) →
      pollRun results i fuel = (fuel, Except.error pollTimeoutMsg)) ∧
    (∀ (results : Nat → Except String Instance) (i fuel : Nat) (e : String),
      (pollRun results i fuel).2 = Except.error e → e = pollTimeoutMsg) := by
  constructor
  · intro results i fuel h
    induction fuel generalizing i with
    | zero => rfl
    | succ n ih =>
      obtain ⟨e, he⟩ := h i
      simp [pollRun, he, ih (i + 1)]
  · intro results i fuel
    induction fuel generalizing i with
    | zero =>
      intro e h
      simpa [pollRun] using h.symm
    | succ n ih =>
      intro e h
      cases hres : results i with
      | error e2 =>
        rw [pollRun, hres] at h
        exact ih (i + 1) e h
      | ok ins =>
        rw [pollRun, hres] at h
        by_cases hs : ins.status == "ACTIVE"
        · simp [hs] at h
        · simp only [hs, Bool.false_eq_true, if_false] at h
          exact ih (i + 1) e h

/-- Witness for C10: three all-error attempts make exactly three polls
and end in the timeout error. -/
theorem c10_witness :
    pollRun (fun _ => Except.error "transient read failure") 0 3 =
      (3, Except.error pollTimeoutMsg) :=
  c10_poll_swallows_errors.1 (fun _ => Except.error "transient read failure") 0 3
    (fun _ => ⟨"transient read failure", rfl⟩)

/-- C5: an instance whose interfaces carry an IPv4 floating address, an
IPv4 fixed address, an IPv6 fixed address and an IPv4 address of an
unknown type yields exactly an external-IP entry for the floating
address and an internal-IP entry for the fixed one (the IPv6 entry and
the unknown-type entry are dropped without error), followed by a
hostname entry and an internal-DNS entry carrying the record name. -/
theorem c5_address_filtering (a b c d t name : String) (ins : Instance)
    (ht1 : t ≠ "floating") (ht2 : t ≠ "fixed")
    (haddr : ins.addresses = [[⟨a, 4, "floating"⟩, ⟨b, 4, "fixed"⟩, ⟨c, 6, "fixed"⟩, ⟨d, 4, t⟩]]) :
    nodeAddressList name ins =
      [⟨NodeAddressType.externalIP, a⟩, ⟨NodeAddressType.internalIP, b⟩,
       ⟨NodeAddressType.hostname, name⟩, ⟨NodeAddressType.internalDNS, name⟩] := by
  simp [nodeAddressList, getIPsFromInstance, haddr, ht1, ht2]

/-- Witness for C5: concrete addresses through the same computation. -/
theorem c5_witness :
    nodeAddressList "m0" ⟨"abc", "ACTIVE",
        [[⟨"1.2.3.4", 4, "floating"⟩, ⟨"10.0.0.5", 4, "fixed"⟩,
          ⟨"fe80::1", 6, "fixed"⟩, ⟨"9.9.9.9", 4, "link"⟩]]⟩ =
      [⟨NodeAddressType.externalIP, "1.2.3.4"⟩, ⟨NodeAddressType.internalIP, "10.0.0.5"⟩,
       ⟨NodeAddressType.hostname, "m0"⟩, ⟨NodeAddressType.internalDNS, "m0"⟩] :=
  c5_address_filtering "1.2.3.4" "10.0.0.5" "fe80::1" "9.9.9.9" "link" "m0" _
    (by decide) (by decide) rfl

lemma updateAnnBody_write_asymmetry (env : UpdEnv) (m : Machine) (ins : Instance)
    (h1 : env.update1Ok = true) :
    (∃ x, RecordWrite.update x ∈ (traceOf (updateAnnBody env m ins)).writes) ∧
    ((∃ y, RecordWrite.statusUpdate y ∈ (traceOf (updateAnnBody env m ins)).writes) ↔
      m.status.addresses ≠ nodeAddressList m.name ins) := by
  unfold updateAnnBody traceOf
  by_cases h2 : env.statusUpdateOk <;> by_cases h3 : env.update2Ok <;>
    by_cases ha : m.status.addresses = nodeAddressList m.name ins <;>
    simp [h1, h2, h3, ha]

lemma updateAnn_conflict (env : UpdEnv) (m : Machine) (ins : Instance) (cin pid : String)
    (hb : m.providerID = some pid) (hne : pid ≠ "openstack:///" ++ ins.id) :
    updateAnn env m (some ins) cin =
      handleMachineError env.clientPresent env.hmeUpdateOk m
        ⟨MachineErrorReason.invalidConfiguration,
          providerIDChangedMsg pid ("openstack:///" ++ ins.id)⟩ updateEventAction := by
  unfold updateAnn
  rw [hb]
  simp [hne]

/-- C4: past the providerID check and with the record write available,
the write-back always performs the annotation/providerID record write,
and performs the separate status-subresource write exactly when the
newly computed address list differs from the one previously stored on
the record. -/
theorem c4_status_write_suppression (env : UpdEnv) (m : Machine) (ins : Instance) (cin : String)
    (hok : m.providerID = none ∨ m.providerID = some ("openstack:///" ++ ins.id))
    (h1 : env.update1Ok = true) :
    (∃ x, RecordWrite.update x ∈ (traceOf (updateAnn env m (some ins) cin)).writes) ∧
    ((∃ y, RecordWrite.statusUpdate y ∈ (traceOf (updateAnn env m (some ins) cin)).writes) ↔
      m.status.addresses ≠ nodeAddressList m.name ins) := by
  rcases hok with h | h
  · unfold updateAnn
    rw [h]
    have := updateAnnBody_write_asymmetry env
      { m with providerID := some ("openstack:///" ++ ins.id) } ins h1
    simpa using this
  · unfold updateAnn
    rw [h]
    simpa using updateAnnBody_write_asymmetry env m ins h1

/-- Witness for C4: a fresh machine bound to `instA` gets both the
record write and (addresses changed from empty) the status write. -/
theorem c4_witness :
    (∃ x, RecordWrite.update x ∈ (traceOf (updateAnn updEnvA machineA (some instA) "cl0")).writes) ∧
    ((∃ y, RecordWrite.statusUpdate y ∈
        (traceOf (updateAnn updEnvA machineA (some instA) "cl0")).writes) ↔
      machineA.status.addresses ≠ nodeAddressList machineA.name instA) :=
  c4_status_write_suppression updEnvA machineA instA "cl0" (Or.inl rfl) rfl

/-- C2 counterexample: with a status-writable client, the conflicting
write-back does mutate the record status (its error reason/message are
set by the error-reporting path), so "leaves the record status
unchanged" is false as stated. -/
theorem c2_counterexample :
    resultOf (updateAnn updEnvA machineOld (some instNew) "cl0") =
      OpResult.machineErr ⟨MachineErrorReason.invalidConfiguration,
        providerIDChangedMsg "openstack:///old" "openstack:///new"⟩ ∧
    (machineOf (updateAnn updEnvA machineOld (some instNew) "cl0")).status ≠
      machineOld.status := by
  decide

/-- C2 (amended): a write-back against an instance whose derived
providerID differs from the bound one fails with the
providerID-conflict configuration error, never overwrites the bound
providerID, and leaves the status address list unchanged (the status
error reason/message and the ERROR annotation are set by the
error-reporting path). -/
theorem c2_provider_id_immutable (env : UpdEnv) (m : Machine) (ins : Instance) (cin pid : String)
    (hb : m.providerID = some pid) (hne : pid ≠ "openstack:///" ++ ins.id)
    (hhme : env.hmeUpdateOk = true) :
    resultOf (updateAnn env m (some ins) cin) =
      OpResult.machineErr ⟨MachineErrorReason.invalidConfiguration,
        providerIDChangedMsg pid ("openstack:///" ++ ins.id)⟩ ∧
    (machineOf (updateAnn env m (some ins) cin)).providerID = some pid ∧
    (machineOf (updateAnn env m (some ins) cin)).status.addresses = m.status.addresses := by
  rw [updateAnn_conflict env m ins cin pid hb hne, hhme]
  exact ⟨hme_result _ _ _ _, (hme_providerID _ _ _ _ _).trans hb, hme_addresses _ _ _ _ _⟩

/-- Witness for C2: the amended statement at the concrete conflict. -/
theorem c2_witness :
    resultOf (updateAnn updEnvA machineOld (some instNew) "cl0") =
      OpResult.machineErr ⟨MachineErrorReason.invalidConfiguration,
        providerIDChangedMsg "openstack:///old" ("openstack:///" ++ instNew.id)⟩ ∧
    (machineOf (updateAnn updEnvA machineOld (some instNew) "cl0")).providerID =
      some "openstack:///old" ∧
    (machineOf (updateAnn updEnvA machineOld (some instNew) "cl0")).status.addresses =
      machineOld.status.addresses :=
  c2_provider_id_immutable updEnvA machineOld instNew "cl0" "openstack:///old"
    rfl (by decide) rfl

lemma hme_calls_raw (cp uo : Bool) (m : Machine) (e : MachineError) (a : String) :
    (handleMachineError cp uo m e a).2.1.calls = [] := hme_calls cp uo m e a

lemma createOp_bound (env : CreateEnv) (m : Machine) (pid cn : String) (ps : ProviderSpec)
    (hpid : m.providerID = some pid) (hci : env.clusterInfra = Except.ok cn)
    (hlb : m.clusterLabel = cn) (hsvc : env.instanceService = Except.ok ())
    (hps : env.providerSpec = Except.ok ps) (hval : validateMachine env ps = Except.ok ()) :
    createOp env m =
      handleMachineError env.upd.clientPresent env.upd.hmeUpdateOk m
        ⟨MachineErrorReason.invalidConfiguration, destroyedMsg m.name⟩ createEventAction := by
  unfold createOp
  rw [hci, hsvc, hps]
  simp [hlb, hval, hpid]

/-- C1: a machine whose Spec.ProviderID is already set never reaches
the provider instance-create call (for any environment), and when the
steps before the guard succeed, Create returns the providerID-conflict
configuration error; in particular a second Create after providerID
was persisted makes no second instance-create call. -/
theorem c1_create_rejects_bound_provider_id :
    (∀ (env : CreateEnv) (m : Machine), m.providerID.isSome = true →
      ProviderCall.instanceCreate ∉ (traceOf (createOp env m)).calls) ∧
    (∀ (env : CreateEnv) (m : Machine) (pid cn : String) (ps : ProviderSpec),
      m.providerID = some pid →
      env.clusterInfra = Except.ok cn → m.clusterLabel = cn →
      env.instanceService = Except.ok () → env.providerSpec = Except.ok ps →
      validateMachine env ps = Except.ok () → env.upd.hmeUpdateOk = true →
      resultOf (createOp env m) =
        OpResult.machineErr ⟨MachineErrorReason.invalidConfiguration, destroyedMsg m.name⟩) := by
  constructor
  · intro env m h
    obtain ⟨pid, hpid⟩ := Option.isSome_iff_exists.mp h
    unfold createOp
    repeat' split
    all_goals simp_all [traceOf, OpTrace.nil, hme_calls_raw]
  · intro env m pid cn ps hpid hci hlb hsvc hps hval hhme
    have hred := createOp_bound env m pid cn ps hpid hci hlb hsvc hps hval
    rw [show resultOf (createOp env m) =
        resultOf (handleMachineError env.upd.clientPresent env.upd.hmeUpdateOk m
          ⟨MachineErrorReason.invalidConfiguration, destroyedMsg m.name⟩ createEventAction) from
      congrArg resultOf hred, hhme]
    exact hme_result _ _ _ _

/-- Witness for C1: the all-success environment against the machine
with a bound providerID: no instance-create call, conflict error. -/
theorem c1_witness :
    ProviderCall.instanceCreate ∉ (traceOf (createOp createEnvA machineBound)).calls ∧
    resultOf (createOp createEnvA machineBound) =
      OpResult.machineErr ⟨MachineErrorReason.invalidConfiguration,
        destroyedMsg machineBound.name⟩ :=
  ⟨c1_create_rejects_bound_provider_id.1 createEnvA machineBound (by decide),
   c1_create_rejects_bound_provider_id.2 createEnvA machineBound "openstack:///abc" "cl0"
     specA (by decide) rfl rfl rfl rfl rfl rfl⟩

lemma updateAnn_calls_raw (env : UpdEnv) (m : Machine) (io : Option Instance) (cin : String) :
    (updateAnn env m io cin).2.1.calls = [] := updateAnn_calls env m io cin

lemma hme_result_raw (cp : Bool) (m : Machine) (e : MachineError) (a : String) :
    (handleMachineError cp true m e a).2.2 = OpResult.machineErr e := hme_result cp m e a

lemma instanceExists_no_create (env : LookupEnv) (m : Machine) :
    ProviderCall.instanceCreate ∉ (instanceExists env m).1.calls := by
  unfold instanceExists
  repeat' split
  all_goals simp [OpTrace.nil]

/-- An Update environment whose lookup finds no instance. -/
def updateEnvEmpty : UpdateEnv := ⟨Except.ok "cl0", lookupEnvEmpty, updEnvA⟩

/-- C3 (code behaviour at the failing input): when the instance lookup
finds no instance, Update does not succeed with an empty status — it
dereferences the nil instance inside the status write-back and panics;
Update never makes an instance-create call. -/
theorem c3_update_nil_instance_panics :
    resultOf (updateOp updateEnvEmpty machineA) = OpResult.panicked nilDerefMsg ∧
    (∀ (env : UpdateEnv) (m : Machine),
      ProviderCall.instanceCreate ∉ (traceOf (updateOp env m)).calls) := by
  constructor
  · decide
  · intro env m
    unfold updateOp
    split
    · simp [traceOf, OpTrace.nil]
    · dsimp only
      split
      · simp [traceOf, instanceExists_no_create]
      · simp [traceOf, withTrace, tcat, updateAnn_calls_raw, instanceExists_no_create]

/-- A Create environment where only the machine-identity label push
fails. -/
def createEnvLabelsFail : CreateEnv :=
  { createEnvA with setLabels := Except.error "label push failed" }

/-- C6 counterexample: with every step up to the label push succeeding
and the label push failing, Create returns success but does not record
the Created event, performs no record write, and leaves providerID
unbound — refuting the claim that the event and the persistence still
happen. -/
theorem c6_counterexample :
    resultOf (createOp createEnvLabelsFail machineA) = OpResult.ok ∧
    Event.mk "Normal" "Created" ∉ (traceOf (createOp createEnvLabelsFail machineA)).events ∧
    (traceOf (createOp createEnvLabelsFail machineA)).writes = [] ∧
    (machineOf (createOp createEnvLabelsFail machineA)).providerID = none := by
  decide

/-- A provider spec requesting the floating IP "198.51.100.7". -/
def specFIP : ProviderSpec := ⟨none, "", "198.51.100.7", "img", "flv", "az", none⟩

/-- A Create environment requesting a floating IP (association
succeeds) in which only the machine-identity label push fails. -/
def createEnvFipLabelsFail : CreateEnv :=
  { createEnvA with providerSpec := Except.ok specFIP,
                    setLabels := Except.error "label push failed" }

/-- C6 (amended): in every Create invocation in which the instance was
created, became active, and — when a floating IP was requested — the
association succeeded, a failure of the machine-identity label push is
swallowed: Create returns success, but it returns immediately — it
does not record the Created event and does not persist providerID,
addresses or annotations (no record write at all). -/
theorem c6_label_push_failure (env : CreateEnv) (m : Machine) (cn : String)
    (ps : ProviderSpec) (udr : String × Bool × Bool × String) (rendered final : String)
    (ins0 ins : Instance) (e : String)
    (hci : env.clusterInfra = Except.ok cn) (hlb : m.clusterLabel = cn)
    (hsvc : env.instanceService = Except.ok ()) (hps : env.providerSpec = Except.ok ps)
    (hval : validateMachine env ps = Except.ok ()) (hpid : m.providerID = none)
    (hud : resolveUserData m ps env.secret = Except.ok udr)
    (hrender : renderUserData env m udr.1 udr.2.1 = Except.ok rendered)
    (hpost : postUserData env rendered udr.2.2.1 udr.2.2.2 = Except.ok final)
    (hic : env.instanceCreate = Except.ok ins0)
    (hpoll : (pollRun env.pollResults 0 env.pollFuel).2 = Except.ok ins)
    (hfip : ps.floatingIP = "" ∨ env.associate = Except.ok ())
    (hsl : env.setLabels = Except.error e) :
    resultOf (createOp env m) = OpResult.ok ∧
    Event.mk "Normal" "Created" ∉ (traceOf (createOp env m)).events ∧
    (traceOf (createOp env m)).writes = [] := by
  obtain ⟨ud, dt, pp, ppn⟩ := udr
  unfold createOp
  rw [hci, hsvc, hps]
  rcases hfip with hf | hassoc
  · simp [hlb, hval, hpid, hud, hrender, hpost, hic, hpoll, createTail, createFinish,
      hf, hsl, withTrace, tcat, traceOf, resultOf]
  · by_cases hf : ps.floatingIP = "" <;>
      simp [hlb, hval, hpid, hud, hrender, hpost, hic, hpoll, createTail, createFinish,
        hf, hassoc, hsl, withTrace, tcat, traceOf, resultOf]

/-- Witness for C6: the concrete label-push-failure environments, both
without a floating IP and with a floating IP whose association
succeeded. -/
theorem c6_witness :
    (resultOf (createOp createEnvLabelsFail machineA) = OpResult.ok ∧
      Event.mk "Normal" "Created" ∉ (traceOf (createOp createEnvLabelsFail machineA)).events ∧
      (traceOf (createOp createEnvLabelsFail machineA)).writes = []) ∧
    (resultOf (createOp createEnvFipLabelsFail machineA) = OpResult.ok ∧
      Event.mk "Normal" "Created" ∉ (traceOf (createOp createEnvFipLabelsFail machineA)).events ∧
      (traceOf (createOp createEnvFipLabelsFail machineA)).writes = []) :=
  ⟨c6_label_push_failure createEnvLabelsFail machineA "cl0" specA ("", false, false, "")
      "" "" instA instA "label push failed" rfl rfl rfl rfl rfl rfl rfl rfl rfl rfl
      rfl (Or.inl rfl) rfl,
   c6_label_push_failure createEnvFipLabelsFail machineA "cl0" specFIP ("", false, false, "")
      "" "" instA instA "label push failed" rfl rfl rfl rfl rfl rfl rfl rfl rfl rfl
      rfl (Or.inr rfl) rfl⟩

/-- A provider spec referencing a user-data secret named "sec". -/
def specUD : ProviderSpec := ⟨some ⟨"sec", ""⟩, "", "", "img", "flv", "az", none⟩

/-- A Create environment whose referenced secret lacks the user-data
key. -/
def createEnvNoKey : CreateEnv :=
  { createEnvA with providerSpec := Except.ok specUD,
                    secret := Except.ok ⟨[("foo", "bar")]⟩ }

/-- C7 counterexample: a secret without the required key makes Create
fail with a plain error, not a classified configuration error: the
record is untouched — no status error fields, no ERROR-state
annotation, no record write — refuting the claim that the error is
classified and written into the status. -/
theorem c7_counterexample :
    resultOf (createOp createEnvNoKey machineA) = OpResult.rawErr (missingKeyMsg "sec" "ns0") ∧
    machineOf (createOp createEnvNoKey machineA) = machineA ∧
    (traceOf (createOp createEnvNoKey machineA)).writes = [] ∧
    lookupA (machineOf (createOp createEnvNoKey machineA)).annotations
      MachineInstanceStateAnnotationName = none := by
  decide

/-- C7 (amended): an empty user-data secret name, or a fetched secret
lacking the user-data key, makes Create fail with a plain unclassified
error returned directly: the machine record is left unchanged, with no
status error reason/message, no ERROR annotation and no record write. -/
theorem c7_userdata_secret_plain_error (env : CreateEnv) (m : Machine) (cn : String)
    (ps : ProviderSpec) (ref : SecretRef)
    (hci : env.clusterInfra = Except.ok cn) (hlb : m.clusterLabel = cn)
    (hsvc : env.instanceService = Except.ok ()) (hps : env.providerSpec = Except.ok ps)
    (hval : validateMachine env ps = Except.ok ()) (hpid : m.providerID = none)
    (href : ps.userDataSecret = some ref) :
    (ref.name = "" →
      createOp env m = (m, OpTrace.nil, OpResult.rawErr "UserDataSecret name must be provided")) ∧
    (∀ sec : Secret, ref.name ≠ "" → env.secret = Except.ok sec →
      lookupA sec.data UserDataKey = none →
      createOp env m = (m, OpTrace.nil, OpResult.rawErr
        (missingKeyMsg ref.name (if ref.namespace_ = "" then m.namespace_ else ref.namespace_)))) := by
  constructor
  · intro h0
    unfold createOp
    rw [hci, hsvc, hps]
    simp [hlb, hval, hpid, resolveUserData, href, h0]
  · intro sec hn hsec hkey
    unfold createOp
    rw [hci, hsvc, hps]
    simp [hlb, hval, hpid, resolveUserData, href, hn, hsec, hkey]

/-- Witness for C7: the concrete missing-key environment. -/
theorem c7_witness :
    createOp createEnvNoKey machineA =
      (machineA, OpTrace.nil, OpResult.rawErr (missingKeyMsg "sec" "ns0")) :=
  (c7_userdata_secret_plain_error createEnvNoKey machineA "cl0" specUD ⟨"sec", ""⟩
      rfl rfl rfl rfl rfl rfl rfl).2 ⟨[("foo", "bar")]⟩ (by decide) rfl rfl

/-- A Delete environment whose lookup finds nothing. -/
def deleteEnvAbsent : DeleteEnv := ⟨Except.ok (), lookupEnvEmpty, Except.ok (), updEnvA⟩

/-- A Delete environment that finds `instA` and whose provider delete
call fails. -/
def deleteEnvFoundFail : DeleteEnv :=
  ⟨Except.ok (), lookupEnvFound, Except.error "boom", updEnvA⟩

/-- C8: Delete on a record whose instance lookup finds nothing returns
success without any provider delete call; when an instance is found,
Delete issues the provider delete with the annotated resource id, a
provider failure is the classified (retryable) delete error, and
success emits the Deleted event. -/
theorem c8_delete_idempotent (env : DeleteEnv) (m : Machine)
    (hsvc : env.service = Except.ok ()) :
    ((instanceExists env.lookup m).2 = Except.ok none →
      resultOf (deleteOp env m) = OpResult.ok ∧
      ∀ id, ProviderCall.instanceDelete id ∉ (traceOf (deleteOp env m)).calls) ∧
    (∀ ins : Instance, (instanceExists env.lookup m).2 = Except.ok (some ins) →
      ProviderCall.instanceDelete (mapGet m.annotations OpenstackIdAnnotationKey) ∈
        (traceOf (deleteOp env m)).calls ∧
      (∀ e : String, env.instanceDelete = Except.error e → env.upd.hmeUpdateOk = true →
        resultOf (deleteOp env m) = OpResult.machineErr
          ⟨MachineErrorReason.deleteError, "error deleting Openstack instance: " ++ e⟩) ∧
      (env.instanceDelete = Except.ok () →
        resultOf (deleteOp env m) = OpResult.ok ∧
        Event.mk "Normal" "Deleted" ∈ (traceOf (deleteOp env m)).events)) := by
  constructor
  · intro hnone
    unfold deleteOp
    rw [hsvc]
    have hcalls := instanceExists_no_create env.lookup m
    constructor
    · simp [hnone, resultOf]
    · intro id
      simp only [hnone]
      -- lookup-call trace only
      unfold instanceExists at hcalls ⊢
      repeat' split
      all_goals simp_all [traceOf, OpTrace.nil]
  · intro ins hfound
    unfold deleteOp
    rw [hsvc]
    refine ⟨?_, ?_, ?_⟩
    · cases hdel : env.instanceDelete with
      | error e2 =>
        simp [hfound, hdel, traceOf, withTrace, tcat, hme_calls_raw, List.mem_append]
      | ok u =>
        cases u
        simp [hfound, hdel, traceOf, tcat, List.mem_append]
    · intro e hdel hhme
      rw [hdel] at *
      simp only [hfound, hdel]
      rw [hhme]
      simp [resultOf, withTrace, hme_result_raw]
    · intro hdel
      simp [hfound, hdel, resultOf, traceOf, tcat]

/-- Witness for C8: the absent-instance and failing-delete
environments. -/
theorem c8_witness :
    (resultOf (deleteOp deleteEnvAbsent machineA) = OpResult.ok ∧
      ProviderCall.instanceDelete "" ∉ (traceOf (deleteOp deleteEnvAbsent machineA)).calls) ∧
    (ProviderCall.instanceDelete (mapGet machineA.annotations OpenstackIdAnnotationKey) ∈
        (traceOf (deleteOp deleteEnvFoundFail machineA)).calls ∧
      resultOf (deleteOp deleteEnvFoundFail machineA) = OpResult.machineErr
        ⟨MachineErrorReason.deleteError, "error deleting Openstack instance: " ++ "boom"⟩) :=
  ⟨⟨((c8_delete_idempotent deleteEnvAbsent machineA rfl).1 rfl).1,
    ((c8_delete_idempotent deleteEnvAbsent machineA rfl).1 rfl).2 ""⟩,
   ⟨((c8_delete_idempotent deleteEnvFoundFail machineA rfl).2 instA rfl).1,
    (((c8_delete_idempotent deleteEnvFoundFail machineA rfl).2 instA rfl).2).1 "boom" rfl rfl⟩⟩
